import Mathlib

/-!
Shallow embedding of the WikiProject_App repository (Django on Lambda with
AWS Cognito authentication).  Python strings are modelled as `List Char`,
dictionaries as association lists, exceptions as `Except`/`Option`, and the
external libraries (PyJWT, boto3, hmac/hashlib/base64, json, the ORM) as
explicit oracle parameters, so that every definition below is a direct
translation of a function in `src/Lambda`.
-/

set_option maxHeartbeats 1000000

namespace WikiApp

/-- Python strings, modelled as lists of characters. -/
abbrev Str := List Char

/-- Conversion from Lean string literals to the `Str` model. -/
def str (s : String) : Str := s.data

/-- Python truthiness of an optional string: `None` and `''` are falsy. -/
def truthyOpt : Option Str → Bool
  | none => false
  | some s => !s.isEmpty

/-- Decoded JWT claims / JSON objects, modelled as a string-keyed association list. -/
abbrev Claims := List (Str × Str)

/-- Python `dict.get(k)`: the first value bound to `k`, or `None`. -/
def claimsGet (cs : Claims) (k : Str) : Option Str :=
  match cs.find? (fun kv => kv.fst == k) with
  | some kv => some kv.snd
  | none => none

/-- Python truthiness of an optional dict: `None` and the empty dict are falsy. -/
def claimsTruthy : Option Claims → Bool
  | none => false
  | some cs => !cs.isEmpty

/-- A row of `accounts/models.py: User` (the fields the middleware touches). -/
structure UserRec where
  username : Str
  email : Str
  first_name : Str
  last_name : Str
  is_staff : Bool
  is_superuser : Bool
deriving DecidableEq

/-- A Python user object attached to `request.user`: either the custom
`AnonymousUser` of `accounts/middleware.py` or a `User` model instance. -/
inductive PyUser
  | anonymous
  | real (u : UserRec)
deriving DecidableEq

/-- `AnonymousUser.is_authenticated` is `False`; `User.is_authenticated` is `True`. -/
def is_authenticated : PyUser → Bool
  | PyUser.anonymous => false
  | PyUser.real _ => true

/-- `AnonymousUser.is_anonymous` is `True`; `User.is_anonymous` is `False`. -/
def is_anonymous : PyUser → Bool
  | PyUser.anonymous => true
  | PyUser.real _ => false

/-- Python truthiness of the user objects: neither class defines
`__bool__` or `__len__`, so every instance is truthy. -/
def pyTruthyUser : PyUser → Bool := fun _ => true

/-- A Django `HttpRequest` as the middleware sees it: headers, cookies and the
optional pre-existing `request.user` attribute (`none` models both an unset
attribute and an attribute set to `None`). -/
structure Request where
  headers : List (Str × Str)
  cookies : List (Str × Str)
  user? : Option PyUser

/-- Lookup in a string-keyed association list (Python `dict.get`). -/
def lookupStr (kvs : List (Str × Str)) (k : Str) : Option Str :=
  match kvs.find? (fun kv => kv.fst == k) with
  | some kv => some kv.snd
  | none => none

/-- `request.headers.get(k, '')`. -/
def headerGet (req : Request) (k : Str) : Str :=
  (lookupStr req.headers k).getD []

/-- `request.COOKIES.get(k)`. -/
def cookieGet (req : Request) (k : Str) : Option Str :=
  lookupStr req.cookies k

/-- `accounts/middleware.py: CognitoAuthMiddleware.get_token_from_request`.
Checks the `Authorization` header for a `Bearer ` value, then falls back to a
truthy `id_token` cookie, else returns `None`. -/
def get_token_from_request (req : Request) : Option Str :=
  let auth_header := headerGet req (str "Authorization")
  if (str "Bearer ").isPrefixOf auth_header then
    some (auth_header.drop 7)
  else
    match cookieGet req (str "id_token") with
    | some id_token => if !id_token.isEmpty then some id_token else none
    | none => none

/-- Oracle for the Python `hmac`/`hashlib`/`base64` primitives used by the
three `calculate_secret_hash` copies: `hmac_sha256 key msg` is the raw
HMAC-SHA256 digest, `b64encode` includes the trailing `.decode()`, and
`utf8` is `str.encode('utf-8')`. Bytes are modelled as `List Nat`. -/
structure CryptoEnv where
  hmac_sha256 : List Nat → List Nat → List Nat
  b64encode : List Nat → Str
  utf8 : Str → List Nat

/-- `accounts/middleware.py: calculate_secret_hash`. -/
def calculate_secret_hash_middleware (C : CryptoEnv) (username client_id client_secret : Str) : Str :=
  let message := username ++ client_id
  let dig := C.hmac_sha256 (C.utf8 client_secret) (C.utf8 message)
  C.b64encode dig

/-- `accounts/views.py: calculate_secret_hash` (textually the same computation). -/
def calculate_secret_hash_views (C : CryptoEnv) (username client_id client_secret : Str) : Str :=
  let message := username ++ client_id
  let dig := C.hmac_sha256 (C.utf8 client_secret) (C.utf8 message)
  C.b64encode dig

/-- `mock/cognito.py: calculate_secret_hash` (positional-argument variant). -/
def calculate_secret_hash_mock (C : CryptoEnv) (username client_id client_secret : Str) : Str :=
  let message := C.utf8 (username ++ client_id)
  let secret := C.utf8 client_secret
  C.b64encode (C.hmac_sha256 secret message)

/-- The secret-hash formula as the claim words it: the base64 encoding of the
HMAC-SHA256 digest of `utf8 (username ++ client_id)` keyed by
`utf8 client_secret`.  Written from the claim for refinement comparison. -/
def secret_hash_spec (C : CryptoEnv) (username client_id client_secret : Str) : Str :=
  C.b64encode (C.hmac_sha256 (C.utf8 client_secret) (C.utf8 (username ++ client_id)))

/-- The literal `'mock-id-'` used by the mock token format. -/
def patMID : Str := str "mock-id-"

/-- Characters of the base64 data alphabet: `A`-`Z`, `a`-`z`, `0`-`9`,
`+`, `/` (padding `'='` is handled separately). -/
def isB64Data (c : Char) : Bool := c.isAlphanum || c == '+' || c == '/'

/-- Oracles for `base64.b64decode(..).decode('utf-8')` and `json.loads` in the
mock branch of `verify_token`.  `rawB64` is consulted on the effective
data-character string the lenient decoder consumes (see `b64Scan`); its
`none` models a raised `UnicodeDecodeError` of the trailing `.decode`.
`jsonParse` returns `none` when `json.loads` raises or when the parsed value
is not a dict (then the later `claims.get` raises `AttributeError`, which the
surrounding `except` turns into `None`). -/
structure MockEnv where
  rawB64 : Str → Option Str
  jsonParse : Str → Option Claims

/-- CPython's lenient `binascii.a2b_base64` scanner (`strict_mode=False`),
tracking the position inside the current quad and the pending padding count:
characters outside the alphabet are skipped; a `'='` ends decoding
successfully once the current quad holds at least two data characters and
enough padding has accumulated (everything after it is ignored), and is
itself ignored otherwise; input exhausted mid-quad raises `binascii.Error`.
Returns the data characters consumed, in order, or `none` for a raised
error. -/
def b64Scan : Str → Nat → Nat → Str → Option Str
  | [], quad_pos, _, acc => if quad_pos = 0 then some acc.reverse else none
  | c :: rest, quad_pos, pads, acc =>
    if c = '=' then
      if 2 ≤ quad_pos ∧ 4 ≤ quad_pos + pads + 1 then some acc.reverse
      else b64Scan rest quad_pos (pads + 1) acc
    else if isB64Data c then b64Scan rest ((quad_pos + 1) % 4) 0 (c :: acc)
    else b64Scan rest quad_pos pads acc

/-- Python `base64.b64decode(s).decode('utf-8')` as `Option`: the lenient
scanner either raises or yields the consumed data characters, whose byte
output plus UTF-8 decoding is the `rawB64` oracle. -/
def b64decodePy (E : MockEnv) (s : Str) : Option Str :=
  match b64Scan s 0 0 [] with
  | some data_chars => E.rawB64 data_chars
  | none => none

/-- Fuelled scanner for Python's `token.replace('mock-id-', '')`: removes the
leftmost occurrence, then continues after it (non-overlapping, left to right). -/
def stripMIDAux : Nat → Str → Str
  | 0, s => s
  | _ + 1, [] => []
  | fuel + 1, c :: rest =>
    if patMID.isPrefixOf (c :: rest) then stripMIDAux fuel ((c :: rest).drop patMID.length)
    else c :: stripMIDAux fuel rest

/-- `token.replace('mock-id-', '')`: every occurrence is removed. -/
def stripMID (s : Str) : Str := stripMIDAux s.length s

/-- `accounts/middleware.py: CognitoAuthMiddleware.verify_token`, mock branch
(`settings.USE_MOCK` true): tokens starting with `'mock-id-'` have every
occurrence of `'mock-id-'` removed, the rest is base64-decoded and JSON-parsed;
any failure or a non-matching token yields `None`. -/
def verify_token_mock (E : MockEnv) (token : Str) : Option Claims :=
  if patMID.isPrefixOf token then
    match b64decodePy E (stripMID token) with
    | some payload_json => E.jsonParse payload_json
    | none => none
  else none

/-- Exceptions raised by PyJWT as the middleware distinguishes them. -/
inductive JwtError
  | expiredSignature
  | invalidToken (msg : Str)
  | other (msg : Str)
deriving DecidableEq

/-- Opaque signing-key material returned by `PyJWKClient`. -/
abbrev SigningKey := Str

/-- Oracle for the PyJWT library: `decodeUnverified` is
`jwt.decode(token, options={"verify_signature": False})`,
`get_signing_key` is `PyJWKClient.get_signing_key_from_jwt`, and
`decodeVerified token key algorithms audience issuer` is the fully
validating `jwt.decode` call. -/
structure JwtEnv where
  decodeUnverified : Str → Except JwtError Claims
  get_signing_key : Str → Except JwtError SigningKey
  decodeVerified : Str → SigningKey → List Str → Str → Str → Except JwtError Claims

/-- The middleware state built by `CognitoAuthMiddleware.__init__`. -/
structure MwState where
  jwk_client : Bool
  issuer : Option Str
  client_id : Option Str
  region : Option Str
deriving DecidableEq

/-- `CognitoAuthMiddleware.__init__`: with a non-empty user-pool id the JWKS
client, issuer URL, client id and region are set; otherwise all are `None`. -/
def initMiddleware (region user_pool_id client_id : Str) : MwState :=
  if !user_pool_id.isEmpty then
    { jwk_client := true
      issuer := some (str "https://cognito-idp." ++ region ++ str ".amazonaws.com/" ++ user_pool_id)
      client_id := some client_id
      region := some region }
  else
    { jwk_client := false, issuer := none, client_id := none, region := none }

/-- Negation of `not self.jwk_client or not self.issuer or not self.client_id`. -/
def cognitoConfigured (mw : MwState) : Bool :=
  mw.jwk_client && truthyOpt mw.issuer && truthyOpt mw.client_id

/-- The `try` block of the real-Cognito branch of `verify_token`: decode
without signature check, compare `iss`, fetch the signing key, then decode
with full validation (`RS256`, audience = client id, issuer).  An `error`
result is an exception escaping the block; `ok none` is the early
`return None` on issuer mismatch. -/
def verify_token_real_body (mw : MwState) (E : JwtEnv) (token : Str) :
    Except JwtError (Option Claims) :=
  match E.decodeUnverified token with
  | Except.error e => Except.error e
  | Except.ok unverified_payload =>
    if claimsGet unverified_payload (str "iss") ≠ mw.issuer then Except.ok none
    else
      match E.get_signing_key token with
      | Except.error e => Except.error e
      | Except.ok signing_key =>
        match E.decodeVerified token signing_key [str "RS256"]
            (mw.client_id.getD []) (mw.issuer.getD []) with
        | Except.error e => Except.error e
        | Except.ok decoded => Except.ok (some decoded)

/-- Real-Cognito branch of `verify_token`: unconfigured settings give `None`,
and the `except` clauses turn `ExpiredSignatureError`, `InvalidTokenError`
and any other exception into `None`. -/
def verify_token_real (mw : MwState) (E : JwtEnv) (token : Str) : Option Claims :=
  if !cognitoConfigured mw then none
  else
    match verify_token_real_body mw E token with
    | Except.ok r => r
    | Except.error JwtError.expiredSignature => none
    | Except.error (JwtError.invalidToken _) => none
    | Except.error (JwtError.other _) => none

/-- `CognitoAuthMiddleware.verify_token`: mock branch when
`settings.USE_MOCK`, real branch otherwise. -/
def verify_token (use_mock : Bool) (ME : MockEnv) (mw : MwState) (E : JwtEnv)
    (token : Str) : Option Claims :=
  if use_mock then verify_token_mock ME token
  else verify_token_real mw E token

/-- Oracle for `boto3.client('cognito-idp').initiate_auth` with
`REFRESH_TOKEN_AUTH`: arguments are client id, refresh token and secret hash;
the result is the new `IdToken`, an `error` is any raised exception
(including a missing key in the response). -/
structure IdpEnv where
  initiate_auth : Str → Str → Str → Except Str Str

/-- `accounts/middleware.py: CognitoAuthMiddleware.refresh_tokens`: requires a
truthy `refresh_token` cookie and a truthy `id_token` cookie, extracts
`cognito:username` from the unverified old token, requires a configured
client secret, computes the secret hash (a `None` username or client id
raises `TypeError`, caught by the `except`) and calls the identity provider.
Returns `(new_id_token, username)` or `(None, None)`. -/
def refresh_tokens (mw : MwState) (C : CryptoEnv) (E : JwtEnv) (I : IdpEnv)
    (client_secret : Option Str) (req : Request) : Option Str × Option Str :=
  let rt? := cookieGet req (str "refresh_token")
  if !truthyOpt rt? then (none, none)
  else
    let old? := cookieGet req (str "id_token")
    if !truthyOpt old? then (none, none)
    else
      match E.decodeUnverified (old?.getD []) with
      | Except.error _ => (none, none)
      | Except.ok unverified_payload =>
        let username? := claimsGet unverified_payload (str "cognito:username")
        if !truthyOpt client_secret then (none, none)
        else
          match username?, mw.client_id with
          | some username, some cid =>
            let secret_hash :=
              calculate_secret_hash_middleware C username cid (client_secret.getD [])
            match I.initiate_auth cid (rt?.getD []) secret_hash with
            | Except.ok new_id_token => (some new_id_token, some username)
            | Except.error _ => (none, none)
          | _, _ => (none, none)

/-- `CognitoAuthMiddleware.get_or_create_user`: requires truthy
`cognito:username` and `email` claims, then defers to the ORM
(`User.objects.get_or_create`), modelled by the `userdb` oracle whose
`none` also covers a raised ORM exception. -/
def get_or_create_user (userdb : Claims → Option UserRec) (cognito_claims : Claims) :
    Option UserRec :=
  let email := claimsGet cognito_claims (str "email")
  let cognito_username := claimsGet cognito_claims (str "cognito:username")
  if !truthyOpt cognito_username || !truthyOpt email then none
  else userdb cognito_claims

/-- A Django response, reduced to the cookies set on it. -/
structure Response where
  cookies : List (Str × Str)
deriving DecidableEq

/-- `response.set_cookie(k, v, ...)`. -/
def setCookie (r : Response) (k v : Str) : Response :=
  { cookies := (k, v) :: r.cookies }

/-- All collaborators of `CognitoAuthMiddleware.__call__`. -/
structure CallEnvs where
  useMock : Bool
  menv : MockEnv
  mw : MwState
  renv : JwtEnv
  crypto : CryptoEnv
  idp : IdpEnv
  client_secret : Option Str
  userdb : Claims → Option UserRec
  get_response : PyUser → Option Claims → Response

/-- The observable outcome of one `__call__`: the final request attributes,
the response, and an instrumentation trace of the external calls made
(`refreshCalls` counts `refresh_tokens` invocations, `verifiedTokens` lists
the tokens passed to `verify_token`, in order). -/
structure CallResult where
  user : PyUser
  cognito_claims : Option Claims
  cognito_username : Option Str
  new_id_token : Option Str
  response : Response
  refreshCalls : Nat
  verifiedTokens : List Str

/-- Tail of `__call__` once the (possibly refreshed) claims are known: attach
truthy claims and the looked-up user to the request, get the downstream
response, and update the `id_token` cookie when a token was refreshed. -/
def mwAttach (E : CallEnvs) (user0 : PyUser) (token : Str)
    (new_id_token : Option Str) (refreshCalls : Nat) (claims : Option Claims) : CallResult :=
  let verifiedTokens :=
    if truthyOpt new_id_token then [token, new_id_token.getD []] else [token]
  let hasClaims := claimsTruthy claims
  let user1 :=
    if hasClaims then
      match get_or_create_user E.userdb (claims.getD []) with
      | some r => PyUser.real r
      | none => user0
    else user0
  let cClaims := if hasClaims then claims else none
  let cUsername :=
    if hasClaims then claimsGet (claims.getD []) (str "cognito:username") else none
  let resp0 := E.get_response user1 cClaims
  let response :=
    if truthyOpt new_id_token then setCookie resp0 (str "id_token") (new_id_token.getD [])
    else resp0
  { user := user1, cognito_claims := cClaims, cognito_username := cUsername,
    new_id_token := new_id_token, response := response,
    refreshCalls := refreshCalls, verifiedTokens := verifiedTokens }

/-- Body of `__call__` for a truthy extracted token: verify, optionally
refresh once (when the claims are falsy and a truthy `refresh_token` cookie
exists) and re-verify a truthy refreshed token, then attach the outcome. -/
def mwWithToken (E : CallEnvs) (req : Request) (user0 : PyUser) (token : Str) : CallResult :=
  let claims0 := verify_token E.useMock E.menv E.mw E.renv token
  let doRefresh := !claimsTruthy claims0 && truthyOpt (cookieGet req (str "refresh_token"))
  let new_id_token :=
    if doRefresh then (refresh_tokens E.mw E.crypto E.renv E.idp E.client_secret req).fst
    else none
  let refreshCalls := if doRefresh then 1 else 0
  let claims :=
    if truthyOpt new_id_token then
      verify_token E.useMock E.menv E.mw E.renv (new_id_token.getD [])
    else claims0
  mwAttach E user0 token new_id_token refreshCalls claims

/-- `accounts/middleware.py: CognitoAuthMiddleware.__call__`: initialise
`request.user` to `AnonymousUser()` unless a non-`None` user is already
attached, extract a token, and process it when truthy. -/
def middlewareCall (E : CallEnvs) (req : Request) : CallResult :=
  let user0 : PyUser :=
    match req.user? with
    | some u => u
    | none => PyUser.anonymous
  let token? := get_token_from_request req
  if truthyOpt token? then mwWithToken E req user0 (token?.getD [])
  else
    { user := user0, cognito_claims := none, cognito_username := none,
      new_id_token := none, response := E.get_response user0 none,
      refreshCalls := 0, verifiedTokens := [] }

/-- Views as the decorators see them. -/
inductive ViewResponse
  | ok (body : Str)
  | authRequired401
  | forbidden403
deriving DecidableEq

/-- The `not request.user` guard shared by the three decorators. -/
def notUserGuard (u : PyUser) : Bool := !pyTruthyUser u

/-- `accounts/decorators.py: cognito_login_required`. -/
def cognito_login_required (view : PyUser → ViewResponse) (u : PyUser) : ViewResponse :=
  if notUserGuard u then ViewResponse.authRequired401 else view u

/-- Attribute access `request.user.is_staff`: `AnonymousUser` does not define
it, so the access raises `AttributeError`. -/
def userAttr_is_staff : PyUser → Except Str Bool
  | PyUser.anonymous => Except.error (str "AttributeError: is_staff")
  | PyUser.real r => Except.ok r.is_staff

/-- Attribute access `request.user.is_superuser` (absent on `AnonymousUser`). -/
def userAttr_is_superuser : PyUser → Except Str Bool
  | PyUser.anonymous => Except.error (str "AttributeError: is_superuser")
  | PyUser.real r => Except.ok r.is_superuser

/-- `accounts/decorators.py: cognito_staff_required`. -/
def cognito_staff_required (view : PyUser → ViewResponse) (u : PyUser) :
    Except Str ViewResponse :=
  if notUserGuard u then Except.ok ViewResponse.authRequired401
  else
    match userAttr_is_staff u with
    | Except.error m => Except.error m
    | Except.ok st =>
      if !st then Except.ok ViewResponse.forbidden403 else Except.ok (view u)

/-- `accounts/decorators.py: cognito_superuser_required`. -/
def cognito_superuser_required (view : PyUser → ViewResponse) (u : PyUser) :
    Except Str ViewResponse :=
  if notUserGuard u then Except.ok ViewResponse.authRequired401
  else
    match userAttr_is_superuser u with
    | Except.error m => Except.error m
    | Except.ok su =>
      if !su then Except.ok ViewResponse.forbidden403 else Except.ok (view u)

/-- A row of `wiki/models.py: PageTable` (timestamps and the float `priority`
field, which no claim touches, are not modelled). -/
structure Page where
  id : Nat
  user : Nat
  slug : Str
  title : Str
  public : Bool
  edit_permission : Bool
  share : Bool
  share_edit_permission : Bool
  share_code : Option Str
  text : Option Str
deriving DecidableEq

/-- Errors a `PageTable.save` can raise: a `ValidationError` from `clean` or
an `IntegrityError` from a database unique constraint. -/
inductive SaveError
  | validation (msg : Str)
  | integrity (msg : Str)
deriving DecidableEq

/-- `wiki/models.py: PageTable.clean`: edit permission requires `public`,
share-edit permission requires `share`. -/
def PageTable_clean (p : Page) : Option SaveError :=
  if p.edit_permission && !p.public then
    some (SaveError.validation (str "編集許可をTrueにするには公開もTrueにする必要があります．"))
  else if p.share_edit_permission && !p.share then
    some (SaveError.validation (str "共有編集をTrueにするには共有もTrueにする必要があります．"))
  else none

/-- Violation of the `wiki_slug_unique` constraint (`fields=["user", "slug"]`)
by another stored row. -/
def slugConflict (p q : Page) : Prop :=
  q.id ≠ p.id ∧ q.user = p.user ∧ q.slug = p.slug

instance (p q : Page) : Decidable (slugConflict p q) := by
  unfold slugConflict; infer_instance

/-- Violation of the unique `share_code` column by another stored row. -/
def shareCodeConflict (p q : Page) : Prop :=
  q.id ≠ p.id ∧ p.share_code ≠ none ∧ q.share_code = p.share_code

instance (p q : Page) : Decidable (shareCodeConflict p q) := by
  unfold shareCodeConflict; infer_instance

/-- The database write performed by `super().save()`: reject rows breaking a
unique constraint, otherwise update the row with the same primary key or
insert a new row. -/
def dbWrite (store : List Page) (p : Page) : Except SaveError (List Page) :=
  if store.any (fun q => decide (slugConflict p q)) then
    Except.error (SaveError.integrity (str "wiki_slug_unique"))
  else if store.any (fun q => decide (shareCodeConflict p q)) then
    Except.error (SaveError.integrity (str "share_code_unique"))
  else if store.any (fun q => decide (q.id = p.id)) then
    Except.ok (store.map (fun q => if q.id = p.id then p else q))
  else
    Except.ok (store ++ [p])

/-- `wiki/models.py: PageTable.save`: run `clean` first, then write. -/
def PageTable_save (store : List Page) (p : Page) : Except SaveError (List Page) :=
  match PageTable_clean p with
  | some e => Except.error e
  | none => dbWrite store p

/-- The stored state after a save attempt together with the raised error, if
any: a failing save leaves the store untouched. -/
def applySave (store : List Page) (p : Page) : List Page × Option SaveError :=
  match PageTable_save store p with
  | Except.ok store' => (store', none)
  | Except.error e => (store, some e)

/-- No two stored rows share `(user, slug)`. -/
def userSlugUnique (store : List Page) : Prop :=
  store.Pairwise (fun q r => ¬(q.user = r.user ∧ q.slug = r.slug))

/-- Primary keys are pairwise distinct. -/
def idsUnique (store : List Page) : Prop :=
  store.Pairwise (fun q r => q.id ≠ r.id)

/-- Exceptions of the Cognito identity provider as the JSON API endpoints
distinguish them; `generic` covers every other raised exception (including a
failing `json.loads`), with `str(e)` as payload. -/
inductive CogExn
  | notAuthorized (msg : Str)
  | userNotFound (msg : Str)
  | codeMismatch (msg : Str)
  | expiredCode (msg : Str)
  | generic (msg : Str)
deriving DecidableEq

/-- Python `str(e)` for the modelled exceptions. -/
def exnText : CogExn → Str
  | CogExn.notAuthorized m => m
  | CogExn.userNotFound m => m
  | CogExn.codeMismatch m => m
  | CogExn.expiredCode m => m
  | CogExn.generic m => m

/-- The `AuthenticationResult` of a successful `admin_initiate_auth`. -/
structure AuthResult where
  idToken : Str
  accessToken : Str
  refreshToken : Str
  expiresIn : Nat
deriving DecidableEq

/-- JSON bodies produced by the API endpoints. -/
inductive ApiBody
  | errorBody (msg : Str)
  | loginTokens (r : AuthResult)
  | confirmed
deriving DecidableEq

/-- A `JsonResponse` reduced to status code and body. -/
structure ApiResponse where
  status : Nat
  body : ApiBody
deriving DecidableEq

/-- `accounts/views.py: api_login`.  The first argument is the outcome of
`json.loads(request.body)` followed by the two `data.get` calls (an `error`
is a raised parse exception with its text); the second is the
`admin_initiate_auth` oracle taking username and password. -/
def api_login (parsed : Except Str (Option Str × Option Str))
    (admin_initiate_auth : Str → Str → Except CogExn AuthResult) : ApiResponse :=
  match parsed with
  | Except.error msg => { status := 500, body := ApiBody.errorBody msg }
  | Except.ok (username?, password?) =>
    if !truthyOpt username? || !truthyOpt password? then
      { status := 400, body := ApiBody.errorBody (str "Username and password required") }
    else
      match admin_initiate_auth (username?.getD []) (password?.getD []) with
      | Except.ok r => { status := 200, body := ApiBody.loginTokens r }
      | Except.error (CogExn.notAuthorized _) =>
        { status := 401, body := ApiBody.errorBody (str "Incorrect username or password") }
      | Except.error (CogExn.userNotFound _) =>
        { status := 404, body := ApiBody.errorBody (str "User not found") }
      | Except.error e => { status := 500, body := ApiBody.errorBody (exnText e) }

/-- `accounts/views.py: api_confirm`.  The first argument is the parsed body
(username and confirmation code); the second is the `confirm_sign_up` oracle. -/
def api_confirm (parsed : Except Str (Option Str × Option Str))
    (confirm_sign_up : Str → Str → Except CogExn Unit) : ApiResponse :=
  match parsed with
  | Except.error msg =>
    { status := 500, body := ApiBody.errorBody (str "Confirmation failed: " ++ msg) }
  | Except.ok (username?, code?) =>
    if !truthyOpt username? || !truthyOpt code? then
      { status := 400, body := ApiBody.errorBody (str "Username and confirmation code required") }
    else
      match confirm_sign_up (username?.getD []) (code?.getD []) with
      | Except.ok _ => { status := 200, body := ApiBody.confirmed }
      | Except.error (CogExn.codeMismatch _) =>
        { status := 400, body := ApiBody.errorBody (str "Invalid verification code") }
      | Except.error (CogExn.expiredCode _) =>
        { status := 400, body := ApiBody.errorBody (str "Verification code has expired") }
      | Except.error (CogExn.notAuthorized m) =>
        { status := 401, body := ApiBody.errorBody (str "User cannot be confirmed: " ++ m) }
      | Except.error (CogExn.userNotFound m) =>
        { status := 404, body := ApiBody.errorBody (str "User not found: " ++ m) }
      | Except.error e =>
        { status := 500, body := ApiBody.errorBody (str "Confirmation failed: " ++ exnText e) }

/-! Concrete fixtures used to evaluate the definitions on explicit inputs.
The base64/JSON oracle values below agree with real Python:
`base64.b64decode('eyJhIjogMX0=')` is `b'\x7b"a": 1\x7d'` (the lenient
scanner consumes the data characters `eyJhIjogMX0`),
`base64.b64decode('e30=')` is `b'\x7b\x7d'` (data characters `e30`), and
`json.loads` of those gives the corresponding dicts. -/

/-- Demo raw base64 decoder, defined on the effective data-character strings
the fixtures exercise. -/
def rawB64demo : Str → Option Str := fun t =>
  if t = str "eyJhIjogMX0" then some (str "\x7b\"a\": 1\x7d")
  else if t = str "e30" then some (str "\x7b\x7d")
  else none

/-- Demo JSON parser matching `rawB64demo`. -/
def jsonParseDemo : Str → Option Claims := fun j =>
  if j = str "\x7b\"a\": 1\x7d" then some [(str "a", str "1")]
  else if j = str "\x7b\x7d" then some []
  else none

/-- Demo mock-mode environment. -/
def menvDemo : MockEnv := { rawB64 := rawB64demo, jsonParse := jsonParseDemo }

/-- A configured middleware state. -/
def mwDemo : MwState :=
  { jwk_client := true, issuer := some (str "ISS"), client_id := some (str "CID"),
    region := some (str "R") }

/-- An unconfigured middleware state (empty `COGNITO_USER_POOL_ID`). -/
def mwUnconfigured : MwState :=
  { jwk_client := false, issuer := none, client_id := none, region := none }

/-- Demo PyJWT oracle: every token decodes to a payload carrying the demo
issuer and username, key fetch and full verification succeed. -/
def renvDemo : JwtEnv :=
  { decodeUnverified := fun _ =>
      Except.ok [(str "iss", str "ISS"), (str "cognito:username", str "alice")]
    get_signing_key := fun _ => Except.ok (str "KEY")
    decodeVerified := fun _ _ _ _ _ =>
      Except.ok [(str "cognito:username", str "alice"), (str "email", str "a@example.com")] }

/-- Demo crypto oracle. -/
def cryptoDemo : CryptoEnv :=
  { hmac_sha256 := fun _ _ => [1, 2, 3], b64encode := fun _ => str "HASH",
    utf8 := fun s => s.map Char.toNat }

/-- Demo identity provider that accepts every refresh request. -/
def idpDemo : IdpEnv := { initiate_auth := fun _ _ _ => Except.ok (str "newtok") }

/-- Demo identity provider that rejects every request. -/
def idpReject : IdpEnv := { initiate_auth := fun _ _ _ => Except.error (str "boom") }

/-- A demo authenticated user record. -/
def userDemo : UserRec :=
  { username := str "alice", email := str "a@example.com", first_name := str "",
    last_name := str "", is_staff := false, is_superuser := false }

/-- A request that reaches the middleware with `request.user` already set to a
real user by an earlier middleware, and carrying no token. -/
def reqPreset : Request := { headers := [], cookies := [], user? := some (PyUser.real userDemo) }

/-- Request with both a bearer header and an `id_token` cookie. -/
def reqC4 : Request :=
  { headers := [(str "Authorization", str "Bearer abc")],
    cookies := [(str "id_token", str "zzz")], user? := none }

/-- Request carrying refresh and id-token cookies for the refresh fixtures. -/
def reqC9 : Request :=
  { headers := [],
    cookies := [(str "refresh_token", str "r"), (str "id_token", str "old")],
    user? := none }

/-- Mock-mode call environment whose token decodes to the empty JSON object:
`verify_token` then returns an empty dict, which Python's `if not claims`
treats like `None`. -/
def envsC2 : CallEnvs :=
  { useMock := true, menv := menvDemo, mw := mwDemo, renv := renvDemo,
    crypto := cryptoDemo, idp := idpReject, client_secret := none,
    userdb := fun _ => none, get_response := fun _ _ => { cookies := [] } }

/-- Request whose `id_token` cookie is the mock token of the empty JSON
object and which carries a refresh cookie. -/
def reqC2 : Request :=
  { headers := [],
    cookies := [(str "id_token", str "mock-id-e30="), (str "refresh_token", str "r")],
    user? := none }

/-- Call environment in which refresh succeeds and hands back a valid mock
token. -/
def envsC2W : CallEnvs :=
  { useMock := true, menv := menvDemo, mw := mwDemo,
    renv := { renvDemo with
      decodeUnverified := fun _ => Except.ok [(str "cognito:username", str "alice")] },
    crypto := cryptoDemo,
    idp := { initiate_auth := fun _ _ _ => Except.ok (str "mock-id-eyJhIjogMX0=") },
    client_secret := some (str "sec"),
    userdb := fun _ => none, get_response := fun _ _ => { cookies := [] } }

/-- Request whose stored id token is invalid (not a mock token) but which can
be refreshed. -/
def reqC2W : Request :=
  { headers := [],
    cookies := [(str "id_token", str "bad"), (str "refresh_token", str "r")],
    user? := none }

/-- A page violating the edit-permission invariant. -/
def pageBad : Page :=
  { id := 1, user := 1, slug := str "s", title := str "t", public := false,
    edit_permission := true, share := false, share_edit_permission := false,
    share_code := none, text := none }

/-- A valid page. -/
def pageGood : Page :=
  { id := 2, user := 1, slug := str "home", title := str "Home", public := true,
    edit_permission := true, share := false, share_edit_permission := false,
    share_code := none, text := some (str "hello") }

/-! Helper lemmas. -/

theorem isPrefixOf_append_self (p s : List Char) : p.isPrefixOf (p ++ s) = true := by
  induction p with
  | nil => simp [ List.isPrefixOf]
  | cons a as ih => simp [ List.isPrefixOf, ih]

theorem drop_length_append (p s : List Char) : (p ++ s).drop p.length = s := by
  induction p with
  | nil => rfl
  | cons a as ih => simp [ih]

theorem isEmpty_false_of_ne {s : Str} (h : s ≠ []) : s.isEmpty = false := by
  cases s with
  | nil => exact absurd rfl h
  | cons a as => rfl

theorem truthyOpt_some {s : Str} (h : s ≠ []) : truthyOpt (some s) = true := by
  simp [truthyOpt, isEmpty_false_of_ne h]

theorem mem_of_isPrefixOf {a : Char} {l₁ l₂ : List Char}
    (h : l₁.isPrefixOf l₂ = true) (ha : a ∈ l₁) : a ∈ l₂ := by
  induction l₁ generalizing l₂ with
  | nil => cases ha
  | cons x xs ih =>
    cases l₂ with
    | nil => simp [ List.isPrefixOf] at h
    | cons y ys =>
      simp only [ List.isPrefixOf, Bool.and_eq_true, beq_iff_eq] at h
      cases ha with
      | head =>
        rw [h.1]
        exact List.Mem.head _
      | tail _ ha' => exact List.Mem.tail _ (ih h.2 ha')

theorem stripMIDAux_succ_cons (fuel : Nat) (c : Char) (rest : Str) :
    stripMIDAux (fuel + 1) (c :: rest) =
      if patMID.isPrefixOf (c :: rest) then stripMIDAux fuel ((c :: rest).drop patMID.length)
      else c :: stripMIDAux fuel rest := rfl

theorem stripMIDAux_le (fuel : Nat) (s : Str) (hle : s.length ≤ fuel)
    (hnd : ∀ c ∈ s, c ≠ '-') : stripMIDAux fuel s = s := by
  induction fuel generalizing s with
  | zero => rfl
  | succ n ih =>
    cases s with
    | nil => rfl
    | cons c rest =>
      have hpre : patMID.isPrefixOf (c :: rest) = false := by
        cases hb : patMID.isPrefixOf (c :: rest) with
        | false => rfl
        | true =>
          have hmem : '-' ∈ c :: rest := mem_of_isPrefixOf hb (by decide)
          exact absurd rfl (hnd '-' hmem)
      rw [stripMIDAux_succ_cons, hpre]
      simp only [Bool.false_eq_true, if_false]
      have hrest : stripMIDAux n rest = rest :=
        ih rest (Nat.le_of_succ_le_succ hle) (fun ch hm => hnd ch (List.Mem.tail _ hm))
      rw [hrest]

theorem stripMID_eq_self {s : Str} (hnd : ∀ c ∈ s, c ≠ '-') : stripMID s = s :=
  stripMIDAux_le s.length s (Nat.le_refl _) hnd

/-- C4: `get_token_from_request` returns the remainder of the Authorization
header after the `Bearer ` prefix when that header starts with `Bearer `
(taking precedence over any cookie); otherwise the value of a present,
non-empty `id_token` cookie; otherwise `None`. -/
theorem C4_get_token_precedence (req : Request) (rest : Str) :
    (headerGet req (str "Authorization") = str "Bearer " ++ rest →
      get_token_from_request req = some rest) ∧
    ((str "Bearer ").isPrefixOf (headerGet req (str "Authorization")) = false →
      ∀ t, cookieGet req (str "id_token") = some t → t ≠ [] →
        get_token_from_request req = some t) ∧
    ((str "Bearer ").isPrefixOf (headerGet req (str "Authorization")) = false →
      cookieGet req (str "id_token") = none ∨ cookieGet req (str "id_token") = some [] →
      get_token_from_request req = none) := by
  refine ⟨?_, ?_, ?_⟩
  · intro h
    unfold get_token_from_request
    rw [h]
    have h7 : (str "Bearer ").length = 7 := rfl
    simp only [isPrefixOf_append_self, if_true]
    rw [← h7, drop_length_append]
  · intro hb t ht hne
    unfold get_token_from_request
    simp only [hb, Bool.false_eq_true, if_false, ht, isEmpty_false_of_ne hne,
      Bool.not_false, if_true]
  · intro hb hc
    unfold get_token_from_request
    cases hc with
    | inl h => simp only [hb, Bool.false_eq_true, if_false, h]
    | inr h => simp only [hb, Bool.false_eq_true, if_false, h, List.isEmpty_nil,
        Bool.not_true, if_false]

theorem C4_witness : get_token_from_request reqC4 = some (str "abc") :=
  (C4_get_token_precedence reqC4 (str "abc")).1 (by decide)

/-- C10: the three `calculate_secret_hash` implementations (middleware, views,
mock) compute the same pure function of `(username, client_id, client_secret)`,
namely the base64 encoding of the HMAC-SHA256 digest of the UTF-8 bytes of
`username ++ client_id` keyed by the UTF-8 bytes of `client_secret`; being
Lean functions they are deterministic. -/
theorem C10_secret_hash_agree (C : CryptoEnv) (username client_id client_secret : Str) :
    calculate_secret_hash_middleware C username client_id client_secret
      = calculate_secret_hash_views C username client_id client_secret ∧
    calculate_secret_hash_views C username client_id client_secret
      = calculate_secret_hash_mock C username client_id client_secret ∧
    calculate_secret_hash_middleware C username client_id client_secret
      = secret_hash_spec C username client_id client_secret :=
  ⟨rfl, rfl, rfl⟩

/-- C1: in real (non-mock) mode `verify_token` follows the source pipeline:
with Cognito configured it first decodes the claims without signature
verification and returns `None` on an `iss` mismatch without consulting the
JWKS client; otherwise it fetches the signing key and returns the fully
verified claims exactly when `jwt.decode` with algorithm `RS256`, audience =
client id and the configured issuer succeeds; an expired or otherwise invalid
token yields `None`. -/
theorem C1_verify_token_real_pipeline (mw : MwState) (E : JwtEnv) (ME : MockEnv)
    (token iss cid : Str)
    (hjwk : mw.jwk_client = true) (hiss : mw.issuer = some iss) (hin : iss ≠ [])
    (hcid : mw.client_id = some cid) (hcn : cid ≠ []) :
    (verify_token false ME mw E token = verify_token_real mw E token) ∧
    (∀ p, E.decodeUnverified token = Except.ok p → claimsGet p (str "iss") ≠ some iss →
      ∀ g d, verify_token_real mw
        { decodeUnverified := E.decodeUnverified, get_signing_key := g, decodeVerified := d }
        token = none) ∧
    (∀ p k c, E.decodeUnverified token = Except.ok p → claimsGet p (str "iss") = some iss →
      E.get_signing_key token = Except.ok k →
      E.decodeVerified token k [str "RS256"] cid iss = Except.ok c →
      verify_token_real mw E token = some c) ∧
    (∀ p k e, E.decodeUnverified token = Except.ok p → claimsGet p (str "iss") = some iss →
      E.get_signing_key token = Except.ok k →
      E.decodeVerified token k [str "RS256"] cid iss = Except.error e →
      verify_token_real mw E token = none) := by
  have hconf : cognitoConfigured mw = true := by
    simp [cognitoConfigured, hjwk, hiss, hcid, truthyOpt,
      isEmpty_false_of_ne hin, isEmpty_false_of_ne hcn]
  refine ⟨rfl, ?_, ?_, ?_⟩
  · intro p hdec hne g d
    simp only [verify_token_real, hconf, Bool.not_true, Bool.false_eq_true, if_false,
      verify_token_real_body, hdec, hiss]
    rw [if_pos hne]
  · intro p k c hdec heq hkey hver
    simp only [verify_token_real, hconf, Bool.not_true, Bool.false_eq_true, if_false,
      verify_token_real_body, hdec, hiss, hcid]
    rw [if_neg (by simp [heq])]
    simp only [hkey, Option.getD_some, hver]
  · intro p k e hdec heq hkey hver
    simp only [verify_token_real, hconf, Bool.not_true, Bool.false_eq_true, if_false,
      verify_token_real_body, hdec, hiss, hcid]
    rw [if_neg (by simp [heq])]
    simp only [hkey, Option.getD_some, hver]
    cases e <;> rfl

theorem C1_witness :
    verify_token_real mwDemo renvDemo (str "tok")
      = some [(str "cognito:username", str "alice"), (str "email", str "a@example.com")] :=
  (C1_verify_token_real_pipeline mwDemo renvDemo menvDemo (str "tok") (str "ISS") (str "CID")
      (by decide) (by decide) (by decide) (by decide) (by decide)).2.2.1
    [(str "iss", str "ISS"), (str "cognito:username", str "alice")] (str "KEY")
    [(str "cognito:username", str "alice"), (str "email", str "a@example.com")]
    rfl (by decide) rfl rfl

/-- C7: `verify_token` is total: unconfigured Cognito settings give `None`;
every exception escaping the real-mode `try` block (expired, invalid or other)
is caught and turned into `None`; a failing mock decode gives `None`; and in
every mode the result is either a claims dict or `None`. -/
theorem C7_verify_token_total (use_mock : Bool) (ME : MockEnv) (mw : MwState)
    (E : JwtEnv) (token : Str) :
    (cognitoConfigured mw = false → verify_token false ME mw E token = none) ∧
    (∀ e, verify_token_real_body mw E token = Except.error e →
      verify_token false ME mw E token = none) ∧
    (b64decodePy ME (stripMID token) = none → verify_token true ME mw E token = none) ∧
    ((∃ c, verify_token use_mock ME mw E token = some c) ∨
      verify_token use_mock ME mw E token = none) := by
  refine ⟨?_, ?_, ?_, ?_⟩
  · intro h
    simp [verify_token, verify_token_real, h]
  · intro e he
    cases hc : cognitoConfigured mw with
    | false => simp [verify_token, verify_token_real, hc]
    | true =>
      simp only [verify_token, if_false, Bool.false_eq_true, verify_token_real, hc,
        Bool.not_true, he]
      cases e <;> rfl
  · intro h
    simp only [verify_token, if_true, verify_token_mock]
    cases hp : patMID.isPrefixOf token with
    | false => simp [hp]
    | true => simp [hp, h]
  · cases hr : verify_token use_mock ME mw E token with
    | none => exact Or.inr rfl
    | some c => exact Or.inl ⟨c, rfl⟩

theorem C7_witness : verify_token false menvDemo mwUnconfigured renvDemo (str "tok") = none :=
  (C7_verify_token_total false menvDemo mwUnconfigured renvDemo (str "tok")).1 (by decide)

/-- C9: `refresh_tokens` returns `(None, None)` without calling the identity
provider whenever the `refresh_token` cookie is missing or empty, the
`id_token` cookie is missing or empty, or `COGNITO_CLIENT_SECRET` is not
configured; when everything is present and the provider call succeeds it
returns the new id token paired with the username extracted from the old id
token. -/
theorem C9_refresh_tokens_guards (mw : MwState) (C : CryptoEnv) (E : JwtEnv)
    (client_secret : Option Str) (req : Request) :
    (truthyOpt (cookieGet req (str "refresh_token")) = false →
      ∀ I, refresh_tokens mw C E I client_secret req = (none, none)) ∧
    (truthyOpt (cookieGet req (str "id_token")) = false →
      ∀ I, refresh_tokens mw C E I client_secret req = (none, none)) ∧
    (truthyOpt client_secret = false →
      ∀ I, refresh_tokens mw C E I client_secret req = (none, none)) ∧
    (∀ I r old p u cs cid t,
      cookieGet req (str "refresh_token") = some r → r ≠ [] →
      cookieGet req (str "id_token") = some old → old ≠ [] →
      E.decodeUnverified old = Except.ok p →
      claimsGet p (str "cognito:username") = some u →
      client_secret = some cs → cs ≠ [] →
      mw.client_id = some cid →
      I.initiate_auth cid r (calculate_secret_hash_middleware C u cid cs) = Except.ok t →
      refresh_tokens mw C E I client_secret req = (some t, some u)) := by
  refine ⟨?_, ?_, ?_, ?_⟩
  · intro h I
    simp [refresh_tokens, h]
  · intro h I
    cases hr : truthyOpt (cookieGet req (str "refresh_token")) with
    | false => simp [refresh_tokens, hr]
    | true => simp [refresh_tokens, hr, h]
  · intro h I
    cases hr : truthyOpt (cookieGet req (str "refresh_token")) with
    | false => simp [refresh_tokens, hr]
    | true =>
      cases ho : truthyOpt (cookieGet req (str "id_token")) with
      | false => simp [refresh_tokens, hr, ho]
      | true =>
        simp only [refresh_tokens, hr, ho, Bool.not_true, Bool.false_eq_true, if_false]
        cases hd : E.decodeUnverified ((cookieGet req (str "id_token")).getD []) with
        | error e => rfl
        | ok payload => simp [h]
  · intro I r old p u cs cid t hr hrne ho hone hdec hu hcs hcne hcid hauth
    simp only [refresh_tokens, hr, truthyOpt_some hrne, ho, truthyOpt_some hone,
      Bool.not_true, Bool.false_eq_true, if_false, Option.getD_some, hdec, hu, hcs,
      truthyOpt_some hcne, hcid, hauth]

theorem C9_witness :
    refresh_tokens mwDemo cryptoDemo renvDemo idpDemo (some (str "sec")) reqC9
      = (some (str "newtok"), some (str "alice")) :=
  (C9_refresh_tokens_guards mwDemo cryptoDemo renvDemo (some (str "sec")) reqC9).2.2.2
    idpDemo (str "r") (str "old")
    [(str "iss", str "ISS"), (str "cognito:username", str "alice")]
    (str "alice") (str "sec") (str "CID") (str "newtok")
    (by decide) (by decide) (by decide) (by decide) rfl (by decide)
    (by decide) (by decide) (by decide) rfl

/-- C2 (counterexample to the claim as stated): for the mock token of the
empty JSON object, `verify_token` returns an empty claims dict — not `None` —
yet `__call__` still invokes `refresh_tokens` (Python's `if not claims` treats
the empty dict like `None`), so the refresh is not invoked "only when
verify_token returned None". -/
theorem C2_counterexample :
    verify_token envsC2.useMock envsC2.menv envsC2.mw envsC2.renv
      ((get_token_from_request reqC2).getD []) = some [] ∧
    some ([] : Claims) ≠ (none : Option Claims) ∧
    (middlewareCall envsC2 reqC2).refreshCalls = 1 := by decide

/-- C2 (amended): `__call__` invokes `refresh_tokens` at most once, and
exactly when a truthy token was extracted, `verify_token` returned `None` or
falsy (empty) claims for it, and a non-empty `refresh_token` cookie is
present; when the refresh yields a truthy new id token, that token is passed
through `verify_token` again and only its verified claims are accepted, and
the response carries an updated `id_token` cookie with the new token. -/
theorem C2_refresh_once (E : CallEnvs) (req : Request) :
    (middlewareCall E req).refreshCalls ≤ 1 ∧
    ((middlewareCall E req).refreshCalls = 1 ↔
      (truthyOpt (get_token_from_request req) = true ∧
        claimsTruthy (verify_token E.useMock E.menv E.mw E.renv
          ((get_token_from_request req).getD [])) = false ∧
        truthyOpt (cookieGet req (str "refresh_token")) = true)) ∧
    (∀ nt,
      (refresh_tokens E.mw E.crypto E.renv E.idp E.client_secret req).fst = some nt →
      nt ≠ [] →
      truthyOpt (get_token_from_request req) = true →
      claimsTruthy (verify_token E.useMock E.menv E.mw E.renv
        ((get_token_from_request req).getD [])) = false →
      truthyOpt (cookieGet req (str "refresh_token")) = true →
      (middlewareCall E req).new_id_token = some nt ∧
      (middlewareCall E req).verifiedTokens =
        [(get_token_from_request req).getD [], nt] ∧
      (middlewareCall E req).cognito_claims =
        (if claimsTruthy (verify_token E.useMock E.menv E.mw E.renv nt) = true then
          verify_token E.useMock E.menv E.mw E.renv nt else none) ∧
      (str "id_token", nt) ∈ (middlewareCall E req).response.cookies) := by
  cases hT : truthyOpt (get_token_from_request req) with
  | false =>
    simp only [middlewareCall, hT, Bool.false_eq_true, if_false]
    refine ⟨Nat.zero_le 1, by simp [hT], ?_⟩
    intro nt h1 h2 h3 h4 h5
    exact absurd h3 (by simp [hT])
  | true =>
    cases hC : claimsTruthy (verify_token E.useMock E.menv E.mw E.renv
        ((get_token_from_request req).getD [])) with
    | true =>
      simp only [middlewareCall, hT, if_true, mwWithToken, hC, Bool.not_true,
        Bool.false_and, Bool.false_eq_true, if_false]
      refine ⟨Nat.zero_le 1, by simp [mwAttach, hC], ?_⟩
      intro nt h1 h2 h3 h4 h5
      exact absurd h4 (by simp [hC])
    | false =>
      cases hRT : truthyOpt (cookieGet req (str "refresh_token")) with
      | false =>
        simp only [middlewareCall, hT, if_true, mwWithToken, hC, hRT, Bool.not_false,
          Bool.true_and, Bool.false_eq_true, if_false]
        refine ⟨Nat.zero_le 1, by simp [mwAttach, hRT], ?_⟩
        intro nt h1 h2 h3 h4 h5
        exact absurd h5 (by simp [hRT])
      | true =>
        simp only [middlewareCall, hT, if_true, mwWithToken, hC, hRT, Bool.not_false,
          Bool.true_and, if_true]
        refine ⟨Nat.le_refl 1, by simp [mwAttach, hT, hC, hRT], ?_⟩
        intro nt h1 h2 h3 h4 h5
        simp [mwAttach, h1, truthyOpt_some h2, setCookie]

theorem C2_witness :
    (middlewareCall envsC2W reqC2W).new_id_token = some (str "mock-id-eyJhIjogMX0=") ∧
    (middlewareCall envsC2W reqC2W).verifiedTokens =
      [(get_token_from_request reqC2W).getD [], str "mock-id-eyJhIjogMX0="] ∧
    (middlewareCall envsC2W reqC2W).cognito_claims =
      (if claimsTruthy (verify_token envsC2W.useMock envsC2W.menv envsC2W.mw envsC2W.renv
          (str "mock-id-eyJhIjogMX0=")) = true then
        verify_token envsC2W.useMock envsC2W.menv envsC2W.mw envsC2W.renv
          (str "mock-id-eyJhIjogMX0=") else none) ∧
    (str "id_token", str "mock-id-eyJhIjogMX0=")
      ∈ (middlewareCall envsC2W reqC2W).response.cookies :=
  (C2_refresh_once envsC2W reqC2W).2.2 (str "mock-id-eyJhIjogMX0=")
    (by decide) (by decide) (by decide) (by decide) (by decide)

theorem mwAttach_char (E : CallEnvs) (user0 : PyUser) (token : Str)
    (nt : Option Str) (rc : Nat) (claims : Option Claims) :
    ((mwAttach E user0 token nt rc claims).cognito_claims = none →
      (mwAttach E user0 token nt rc claims).user = user0) ∧
    (∀ cs, (mwAttach E user0 token nt rc claims).cognito_claims = some cs →
      (mwAttach E user0 token nt rc claims).user =
        (match get_or_create_user E.userdb cs with
          | some r => PyUser.real r
          | none => user0)) := by
  cases hHC : claimsTruthy claims with
  | false =>
    constructor
    · intro _
      simp [mwAttach, hHC]
    · intro cs hcs
      simp [mwAttach, hHC] at hcs
  | true =>
    constructor
    · intro hcs
      simp only [mwAttach, hHC, if_true] at hcs
      rw [hcs] at hHC
      simp [claimsTruthy] at hHC
    · intro cs hcs
      simp only [mwAttach, hHC, if_true] at hcs ⊢
      rw [hcs]
      simp only [Option.getD_some]

/-- C8 (counterexample to the claim as stated): a request that reaches the
middleware with a real user already attached and no token keeps that user;
the final `request.user` is not an `AnonymousUser` instance although no token
claims were verified. -/
theorem C8_counterexample :
    (middlewareCall envsC2 reqPreset).user = PyUser.real userDemo ∧
    (middlewareCall envsC2 reqPreset).cognito_claims = none ∧
    PyUser.real userDemo ≠ PyUser.anonymous := by decide

/-- C8 (amended): after `__call__`, `request.user` is never `None`: it is a
`User` instance when token claims were verified and user lookup/creation
succeeded, and otherwise the request's pre-existing user object when one was
attached, else an `AnonymousUser`; `User.is_authenticated` is always true,
`AnonymousUser` is unauthenticated/anonymous, and since both objects are
truthy in Python, the `not request.user` guard of the three decorators is
false on every middleware-processed request and their 401 branch is
unreachable. -/
theorem C8_user_after_call (E : CallEnvs) (req : Request)
    (view sview suview : PyUser → ViewResponse) :
    pyTruthyUser (middlewareCall E req).user = true ∧
    (∀ r, is_authenticated (PyUser.real r) = true) ∧
    (∀ cs r, (middlewareCall E req).cognito_claims = some cs →
      get_or_create_user E.userdb cs = some r →
      (middlewareCall E req).user = PyUser.real r) ∧
    (∀ cs, (middlewareCall E req).cognito_claims = some cs →
      get_or_create_user E.userdb cs = none →
      (middlewareCall E req).user = req.user?.getD PyUser.anonymous) ∧
    ((middlewareCall E req).cognito_claims = none →
      (middlewareCall E req).user = req.user?.getD PyUser.anonymous) ∧
    (is_authenticated PyUser.anonymous = false ∧ is_anonymous PyUser.anonymous = true) ∧
    notUserGuard (middlewareCall E req).user = false ∧
    cognito_login_required view (middlewareCall E req).user
      = view (middlewareCall E req).user ∧
    cognito_staff_required sview (middlewareCall E req).user =
      (match userAttr_is_staff (middlewareCall E req).user with
        | Except.error m => Except.error m
        | Except.ok st =>
          if !st then Except.ok ViewResponse.forbidden403
          else Except.ok (sview (middlewareCall E req).user)) ∧
    cognito_superuser_required suview (middlewareCall E req).user =
      (match userAttr_is_superuser (middlewareCall E req).user with
        | Except.error m => Except.error m
        | Except.ok su =>
          if !su then Except.ok ViewResponse.forbidden403
          else Except.ok (suview (middlewareCall E req).user)) := by
  have huser0 : (match req.user? with
      | some u => u
      | none => PyUser.anonymous) = req.user?.getD PyUser.anonymous := by
    cases req.user? <;> rfl
  refine ⟨?_, ?_, ?_, ?_, ?_, ?_, ?_, ?_, ?_, ?_⟩
  · rfl
  · exact fun r => rfl
  · intro cs r hcs hget
    cases hT : truthyOpt (get_token_from_request req) with
    | false =>
      simp only [middlewareCall, hT, Bool.false_eq_true, if_false] at hcs
      exact Option.noConfusion hcs
    | true =>
      simp only [middlewareCall, hT, if_true, mwWithToken] at hcs ⊢
      have h2 := (mwAttach_char E _ _ _ _ _).2 cs hcs
      rw [h2, hget]
  · intro cs hcs hget
    cases hT : truthyOpt (get_token_from_request req) with
    | false =>
      simp only [middlewareCall, hT, Bool.false_eq_true, if_false] at hcs
      exact Option.noConfusion hcs
    | true =>
      simp only [middlewareCall, hT, if_true, mwWithToken] at hcs ⊢
      have h2 := (mwAttach_char E _ _ _ _ _).2 cs hcs
      rw [h2, hget]
      exact huser0
  · intro hcs
    cases hT : truthyOpt (get_token_from_request req) with
    | false =>
      simp only [middlewareCall, hT, Bool.false_eq_true, if_false]
      exact huser0
    | true =>
      simp only [middlewareCall, hT, if_true, mwWithToken] at hcs ⊢
      have h1 := (mwAttach_char E _ _ _ _ _).1 hcs
      rw [h1]
      exact huser0
  · exact ⟨rfl, rfl⟩
  · rfl
  · rfl
  · rfl
  · rfl

theorem C8_witness :
    (middlewareCall envsC2 reqPreset).user = reqPreset.user?.getD PyUser.anonymous :=
  (C8_user_after_call envsC2 reqPreset (fun _ => ViewResponse.ok (str "v"))
      (fun _ => ViewResponse.ok (str "v")) (fun _ => ViewResponse.ok (str "v"))).2.2.2.2.1
    (by decide)

/-- C3: every `PageTable.save` runs `clean` first and raises a
`ValidationError` before writing whenever edit permission is set without
public or share-edit permission without share, leaving the stored state
unchanged; and a successful save preserves distinct primary keys and the
uniqueness of `(user, slug)` across stored pages. -/
theorem C3_save_invariants (store : List Page) (p : Page)
    (hid : idsUnique store) (hus : userSlugUnique store) :
    ((p.edit_permission = true ∧ p.public = false) ∨
        (p.share_edit_permission = true ∧ p.share = false) →
      (∃ msg, PageTable_save store p = Except.error (SaveError.validation msg)) ∧
        (applySave store p).fst = store) ∧
    (∀ store', PageTable_save store p = Except.ok store' →
      userSlugUnique store' ∧ idsUnique store') := by
  constructor
  · intro hv
    have hclean : ∃ msg, PageTable_clean p = some (SaveError.validation msg) := by
      cases hv with
      | inl h =>
        exact ⟨str "編集許可をTrueにするには公開もTrueにする必要があります．",
          by simp [PageTable_clean, h.1, h.2]⟩
      | inr h =>
        cases hb : (p.edit_permission && !p.public) with
        | true =>
          exact ⟨str "編集許可をTrueにするには公開もTrueにする必要があります．",
            by simp [PageTable_clean, hb]⟩
        | false =>
          exact ⟨str "共有編集をTrueにするには共有もTrueにする必要があります．",
            by simp [PageTable_clean, hb, h.1, h.2]⟩
    obtain ⟨msg, hmsg⟩ := hclean
    refine ⟨⟨msg, ?_⟩, ?_⟩
    · simp [PageTable_save, hmsg]
    · simp [applySave, PageTable_save, hmsg]
  · intro store' hok
    cases hc : PageTable_clean p with
    | some e => simp [PageTable_save, hc] at hok
    | none =>
      simp only [PageTable_save, hc] at hok
      unfold dbWrite at hok
      cases h1 : store.any (fun q => decide (slugConflict p q)) with
      | true => simp [h1] at hok
      | false =>
        cases h2 : store.any (fun q => decide (shareCodeConflict p q)) with
        | true => simp [h1, h2] at hok
        | false =>
          have hno : ∀ q ∈ store, ¬ slugConflict p q := by
            intro q hq
            have h := List.any_eq_false.mp h1 q hq
            simpa using h
          cases h3 : store.any (fun q => decide (q.id = p.id)) with
          | false =>
            simp only [h1, h2, h3, Bool.false_eq_true, if_false] at hok
            have hids : ∀ q ∈ store, q.id ≠ p.id := by
              intro q hq
              have h := List.any_eq_false.mp h3 q hq
              simpa using h
            injection hok with hst
            subst hst
            constructor
            · rw [userSlugUnique, List.pairwise_append]
              refine ⟨hus, by simp, ?_⟩
              intro a ha b hb
              have hb' : b = p := by simpa using hb
              subst hb'
              intro hcl
              exact hno a ha ⟨hids a ha, hcl.1, hcl.2⟩
            · rw [idsUnique, List.pairwise_append]
              refine ⟨hid, by simp, ?_⟩
              intro a ha b hb
              have hb' : b = p := by simpa using hb
              subst hb'
              exact hids a ha
          | true =>
            simp only [h1, h2, h3, Bool.false_eq_true, if_false, if_true] at hok
            injection hok with hst
            subst hst
            constructor
            · rw [userSlugUnique, List.pairwise_map]
              refine List.Pairwise.imp_of_mem ?_ (hid.and hus)
              intro a b ha hb hrel
              by_cases haid : a.id = p.id
              · by_cases hbid : b.id = p.id
                · exact absurd (haid.trans hbid.symm) hrel.1
                · simp only [if_pos haid, if_neg hbid]
                  intro hcl
                  exact hno b hb ⟨hbid, hcl.1.symm, hcl.2.symm⟩
              · by_cases hbid : b.id = p.id
                · simp only [if_neg haid, if_pos hbid]
                  intro hcl
                  exact hno a ha ⟨haid, hcl.1, hcl.2⟩
                · simp only [if_neg haid, if_neg hbid]
                  exact hrel.2
            · rw [idsUnique, List.pairwise_map]
              refine List.Pairwise.imp ?_ hid
              intro a b hab
              by_cases haid : a.id = p.id
              · by_cases hbid : b.id = p.id
                · exact absurd (haid.trans hbid.symm) hab
                · simp only [if_pos haid, if_neg hbid]
                  exact fun h => hbid h.symm
              · by_cases hbid : b.id = p.id
                · simp only [if_neg haid, if_pos hbid]
                  exact haid
                · simp only [if_neg haid, if_neg hbid]
                  exact hab

theorem C3_witness :
    (∃ msg, PageTable_save [] pageBad = Except.error (SaveError.validation msg)) ∧
      (applySave [] pageBad).fst = [] :=
  (C3_save_invariants [] pageBad List.Pairwise.nil List.Pairwise.nil).1
    (Or.inl ⟨rfl, rfl⟩)

/-- C5 (counterexample to the claim as stated): a `NotAuthorizedException`
during `api_confirm` is "another exception" by the claim's enumeration, yet
the endpoint returns status 401, not 500. -/
theorem C5_counterexample :
    (api_confirm (Except.ok (some (str "u"), some (str "c")))
        (fun _ _ => Except.error (CogExn.notAuthorized (str "x")))).status = 401 ∧
    (api_confirm (Except.ok (some (str "u"), some (str "c")))
        (fun _ _ => Except.error (CogExn.notAuthorized (str "x")))).status ≠ 500 := by
  decide

/-- C5 (amended): `api_login` maps `NotAuthorizedException` to 401 and
`UserNotFoundException` to 404; `api_confirm` maps `CodeMismatchException`
and `ExpiredCodeException` to 400 and additionally `NotAuthorizedException`
to 401 and `UserNotFoundException` to 404; a failing body parse or missing
required fields give 500 resp. 400; every remaining exception gives 500 with
the exception text in the JSON error body. -/
theorem C5_api_status_mapping
    (A : Str → Str → Except CogExn AuthResult)
    (Cf : Str → Str → Except CogExn Unit)
    (m : Str) (u? p? : Option Str) :
    ((api_login (Except.error m) A).status = 500 ∧
      (api_login (Except.error m) A).body = ApiBody.errorBody m) ∧
    (truthyOpt u? = false ∨ truthyOpt p? = false →
      (api_login (Except.ok (u?, p?)) A).status = 400) ∧
    (truthyOpt u? = true → truthyOpt p? = true →
      (∀ mm, A (u?.getD []) (p?.getD []) = Except.error (CogExn.notAuthorized mm) →
        (api_login (Except.ok (u?, p?)) A).status = 401) ∧
      (∀ mm, A (u?.getD []) (p?.getD []) = Except.error (CogExn.userNotFound mm) →
        (api_login (Except.ok (u?, p?)) A).status = 404) ∧
      (∀ mm, A (u?.getD []) (p?.getD []) = Except.error (CogExn.generic mm) →
        (api_login (Except.ok (u?, p?)) A).status = 500 ∧
          (api_login (Except.ok (u?, p?)) A).body = ApiBody.errorBody mm) ∧
      (∀ r, A (u?.getD []) (p?.getD []) = Except.ok r →
        (api_login (Except.ok (u?, p?)) A).status = 200)) ∧
    ((api_confirm (Except.error m) Cf).status = 500 ∧
      (api_confirm (Except.error m) Cf).body
        = ApiBody.errorBody (str "Confirmation failed: " ++ m)) ∧
    (truthyOpt u? = false ∨ truthyOpt p? = false →
      (api_confirm (Except.ok (u?, p?)) Cf).status = 400) ∧
    (truthyOpt u? = true → truthyOpt p? = true →
      (∀ mm, Cf (u?.getD []) (p?.getD []) = Except.error (CogExn.codeMismatch mm) →
        (api_confirm (Except.ok (u?, p?)) Cf).status = 400) ∧
      (∀ mm, Cf (u?.getD []) (p?.getD []) = Except.error (CogExn.expiredCode mm) →
        (api_confirm (Except.ok (u?, p?)) Cf).status = 400) ∧
      (∀ mm, Cf (u?.getD []) (p?.getD []) = Except.error (CogExn.notAuthorized mm) →
        (api_confirm (Except.ok (u?, p?)) Cf).status = 401) ∧
      (∀ mm, Cf (u?.getD []) (p?.getD []) = Except.error (CogExn.userNotFound mm) →
        (api_confirm (Except.ok (u?, p?)) Cf).status = 404) ∧
      (∀ mm, Cf (u?.getD []) (p?.getD []) = Except.error (CogExn.generic mm) →
        (api_confirm (Except.ok (u?, p?)) Cf).status = 500 ∧
          (api_confirm (Except.ok (u?, p?)) Cf).body
            = ApiBody.errorBody (str "Confirmation failed: " ++ mm))) := by
  refine ⟨⟨rfl, rfl⟩, ?_, ?_, ⟨rfl, rfl⟩, ?_, ?_⟩
  · intro h
    cases h with
    | inl h => simp [api_login, h]
    | inr h => simp [api_login, h]
  · intro hu hp
    refine ⟨?_, ?_, ?_, ?_⟩
    · intro mm hA
      simp [api_login, hu, hp, hA]
    · intro mm hA
      simp [api_login, hu, hp, hA]
    · intro mm hA
      simp [api_login, hu, hp, hA, exnText]
    · intro r hA
      simp [api_login, hu, hp, hA]
  · intro h
    cases h with
    | inl h => simp [api_confirm, h]
    | inr h => simp [api_confirm, h]
  · intro hu hp
    refine ⟨?_, ?_, ?_, ?_, ?_⟩
    · intro mm hC
      simp [api_confirm, hu, hp, hC]
    · intro mm hC
      simp [api_confirm, hu, hp, hC]
    · intro mm hC
      simp [api_confirm, hu, hp, hC]
    · intro mm hC
      simp [api_confirm, hu, hp, hC]
    · intro mm hC
      simp [api_confirm, hu, hp, hC, exnText]

theorem C5_witness :
    (api_login (Except.ok (some (str "u"), some (str "p")))
        (fun _ _ => Except.error (CogExn.notAuthorized (str "bad")))).status = 401 :=
  ((C5_api_status_mapping (fun _ _ => Except.error (CogExn.notAuthorized (str "bad")))
      (fun _ _ => Except.ok ()) (str "m") (some (str "u")) (some (str "p"))).2.2.1
    (by decide) (by decide)).1 (str "bad") rfl

end WikiApp
